import Mathlib

set_option maxRecDepth 8192

/-!
Shallow embedding of the scene state machine of morph::VisualOwnable
(src/morph/VisualOwnable.h): the camera/projection/registry state, the input
callbacks (key_callback, scroll_callback, cursor_position_callback,
mouse_button_callback), the snapshot-file load performed by init_gl, the pixel
transform of saveImage, and removeVisualModel.

Float arithmetic is modelled exactly over the rationals.  The design document
declares the vector/matrix/quaternion library an external collaborator
("Transform Primitives (external ...) - assumed correct"); its polynomial
operations (matrix-vector product, quaternion product, quaternion-to-matrix)
are implemented concretely over the rationals, and its transcendental
operations (sqrt, sin, cos, 4x4 matrix inversion, the degrees-to-radians
constant) are supplied through an explicit parameter bundle `MathPrims`,
since they have no exact rational implementation.

Out-of-bounds std::vector indexing (undefined behaviour in the source) is
modelled by returning `none` from the affected callback.
-/

namespace MorphVis

/-- Projection type enumeration from VisualOwnable.h (`enum class perspective_type`). -/
inductive perspective_type
  | perspective
  | orthographic
  | cylindrical
deriving DecidableEq

/-- Two-component rational vector, modelling morph::vec<float, 2>. -/
structure Vec2 where
  x : ℚ
  y : ℚ
deriving DecidableEq

/-- Three-component rational vector, modelling morph::vec<float, 3>. -/
structure Vec3 where
  x : ℚ
  y : ℚ
  z : ℚ
deriving DecidableEq

/-- Four-component rational vector, modelling morph::vec<float, 4>. -/
structure Vec4 where
  x : ℚ
  y : ℚ
  z : ℚ
  w : ℚ
deriving DecidableEq

/-- Quaternion with rational components, modelling morph::quaternion<float>.
The default-constructed morph quaternion is the identity (w = 1). -/
structure Quat where
  w : ℚ
  x : ℚ
  y : ℚ
  z : ℚ
deriving DecidableEq

/-- A 4x4 rational matrix (entry mIJ is row I, column J), modelling morph::mat44<float>. -/
structure Mat4 where
  m00 : ℚ
  m01 : ℚ
  m02 : ℚ
  m03 : ℚ
  m10 : ℚ
  m11 : ℚ
  m12 : ℚ
  m13 : ℚ
  m20 : ℚ
  m21 : ℚ
  m22 : ℚ
  m23 : ℚ
  m30 : ℚ
  m31 : ℚ
  m32 : ℚ
  m33 : ℚ
deriving DecidableEq

/-- Identity 4x4 matrix (mat44::setToIdentity). -/
def mat4Id : Mat4 := ⟨1, 0, 0, 0, 0, 1, 0, 0, 0, 0, 1, 0, 0, 0, 0, 1⟩

/-- Modelled from the spec: matrix-vector product of the external transform
primitive library (morph/mat44.h is not under src/; the spec declares the
numeric library an assumed-correct external primitive).  Standard product. -/
def mat4MulVec (a : Mat4) (v : Vec4) : Vec4 :=
  ⟨a.m00 * v.x + a.m01 * v.y + a.m02 * v.z + a.m03 * v.w,
   a.m10 * v.x + a.m11 * v.y + a.m12 * v.z + a.m13 * v.w,
   a.m20 * v.x + a.m21 * v.y + a.m22 * v.z + a.m23 * v.w,
   a.m30 * v.x + a.m31 * v.y + a.m32 * v.z + a.m33 * v.w⟩

/-- Componentwise addition of 4-vectors (morph::vec operator+=). -/
def vec4Add (a b : Vec4) : Vec4 := ⟨a.x + b.x, a.y + b.y, a.z + b.z, a.w + b.w⟩

/-- Modelled from the spec: the rotation matrix of a unit quaternion, as
produced by `mat44::rotate (quaternion)` applied to the identity matrix
(morph/mat44.h and morph/quaternion.h are the external transform-primitive
library).  Standard quaternion-to-rotation-matrix formula. -/
def mat4OfQuat (q : Quat) : Mat4 :=
  ⟨1 - 2 * (q.y * q.y + q.z * q.z), 2 * (q.x * q.y - q.w * q.z), 2 * (q.x * q.z + q.w * q.y), 0,
   2 * (q.x * q.y + q.w * q.z), 1 - 2 * (q.x * q.x + q.z * q.z), 2 * (q.y * q.z - q.w * q.x), 0,
   2 * (q.x * q.z - q.w * q.y), 2 * (q.y * q.z + q.w * q.x), 1 - 2 * (q.x * q.x + q.y * q.y), 0,
   0, 0, 0, 1⟩

/-- Modelled from the spec: Hamilton product, as used by
`quaternion::postmultiply` of the external primitive library. -/
def quatMul (a b : Quat) : Quat :=
  ⟨a.w * b.w - a.x * b.x - a.y * b.y - a.z * b.z,
   a.w * b.x + a.x * b.w + a.y * b.z - a.z * b.y,
   a.w * b.y - a.x * b.z + a.y * b.w + a.z * b.x,
   a.w * b.z + a.x * b.y - a.y * b.x + a.z * b.w⟩

/-- Transcendental operations of the external transform-primitive library,
which have no exact rational implementation: square root, sine, cosine, the
degrees-to-radians constant and 4x4 matrix inversion.  The callbacks are
parameterised over this bundle; every theorem below holds for all bundles,
mirroring the spec's "Transform Primitives ... assumed correct". -/
structure MathPrims where
  msqrt : ℚ → ℚ
  msin : ℚ → ℚ
  mcos : ℚ → ℚ
  deg2rad : ℚ
  matInv : Mat4 → Mat4

/-- Trivial primitive bundle, used only to instantiate witnesses. -/
def zeroPrims : MathPrims := ⟨fun _ => 0, fun _ => 0, fun _ => 0, 0, fun _ => mat4Id⟩

/-- Modelled from the spec: quaternion from rotation axis and angle (radians),
the `morph::quaternion (axis, angle)` constructor of the external primitive
library: w = cos(angle/2), vector part = axis * sin(angle/2). -/
def quatOfAxisAngle (pr : MathPrims) (axis : Vec3) (angle : ℚ) : Quat :=
  ⟨pr.mcos (angle / 2), axis.x * pr.msin (angle / 2),
   axis.y * pr.msin (angle / 2), axis.z * pr.msin (angle / 2)⟩

/-- Modelled from the spec: `vec<float,3>::renormalize` of the external
primitive library divides the vector by its length. -/
def renormalize3 (pr : MathPrims) (v : Vec3) : Vec3 :=
  let len := pr.msqrt (v.x * v.x + v.y * v.y + v.z * v.z)
  ⟨v.x / len, v.y / len, v.z / len⟩

/-- A renderable object as seen by VisualOwnable.  The registry identifies a
model by raw pointer identity; `addr` models the pointer value.  The alpha /
hidden / twodimensional attributes are the ones the scene consumes
(morph/VisualModel.h is not under src/; attribute semantics follow the spec:
"visibility/hidden flag, alpha (opacity, clamped to [0,1])"). -/
structure VModel where
  addr : ℕ
  alpha : ℚ := 1
  hidden : Bool := false
  twodimensional : Bool := false
deriving DecidableEq

/-- Modelled from the spec: `VisualModel::toggleHide` flips the hidden flag. -/
def toggleHide (m : VModel) : VModel := {m with hidden := !m.hidden}

/-- Modelled from the spec: `VisualModel::decAlpha` decreases alpha by a step,
clamped to [0,1] (step value chosen as 0.1; no claim depends on it). -/
def decAlpha (m : VModel) : VModel := {m with alpha := max 0 (m.alpha - 0.1)}

/-- Modelled from the spec: `VisualModel::incAlpha` increases alpha by a step,
clamped to [0,1] (step value chosen as 0.1; no claim depends on it). -/
def incAlpha (m : VModel) : VModel := {m with alpha := min 1 (m.alpha + 0.1)}

/-- A value held by the parsed snapshot JSON object under one of the seven
recognized field names: either a number (get<float> succeeds) or something
non-numeric (get<float> raises a type error).  nlohmann::json is an external
library; this models exactly the behaviour init_gl relies on. -/
inductive JVal
  | num (q : ℚ)
  | nonNum
deriving DecidableEq

/-- The parsed snapshot JSON object: each recognized field is present
(`some`) or absent (`none`, json::contains returns false). -/
structure VConf where
  scenetrans_x : Option JVal := none
  scenetrans_y : Option JVal := none
  scenetrans_z : Option JVal := none
  scenerotn_w : Option JVal := none
  scenerotn_x : Option JVal := none
  scenerotn_y : Option JVal := none
  scenerotn_z : Option JVal := none
deriving DecidableEq

/-- One conditional field read of init_gl:
`vconf.contains(name) ? vconf[name].get<float>() : current`.
Absent field keeps the current value; a non-numeric field raises (none). -/
def jget : Option JVal → ℚ → Option ℚ
  | none, cur => some cur
  | some (JVal.num v), _ => some v
  | some JVal.nonNum, _ => none

/-- The scene state of morph::VisualOwnable: every member that the modelled
callbacks read or write, with the member initializers of the source as
default values.  GL handles, shader-program records and text models are
outside the modelled state (they are GPU resources, not scene state). -/
structure Visual where
  window_w : ℚ := 640
  window_h : ℚ := 480
  cyl_cam_pos : Vec4 := ⟨0, 0, 0, 1⟩
  cyl_cam_pos_default : Vec4 := ⟨0, 0, 0, 1⟩
  cyl_radius : ℚ := 0.005
  cyl_height : ℚ := 0.01
  readyToFinish : Bool := false
  zNear : ℚ := 0.001
  zFar : ℚ := 300
  fov : ℚ := 30
  showCoordArrows : Bool := false
  coordArrowsInScene : Bool := false
  showTitle : Bool := false
  scenetrans_stepsize : ℚ := 0.1
  sceneLocked : Bool := false
  ptype : perspective_type := perspective_type.perspective
  ortho_lb : Vec2 := ⟨-1.3, -1⟩
  ortho_rt : Vec2 := ⟨1.3, 1⟩
  vm : List VModel := []
  selectedVisualModel : ℕ := 0
  cursorpos : Vec2 := ⟨0, 0⟩
  scenetrans : Vec3 := ⟨0, 0, -5⟩
  scenetrans_default : Vec3 := ⟨0, 0, -5⟩
  rotateMode : Bool := false
  rotateModMode : Bool := false
  translateMode : Bool := false
  mousePressPosition : Vec2 := ⟨0, 0⟩
  rotnAxis : Vec3 := ⟨0, 0, 0⟩
  rotn : Quat := ⟨1, 0, 0, 0⟩
  rotn_default : Quat := ⟨1, 0, 0, 0⟩
  savedRotn : Quat := ⟨1, 0, 0, 0⟩
  projection : Mat4 := mat4Id
  invproj : Mat4 := mat4Id
  scene : Mat4 := mat4Id
  invscene : Mat4 := mat4Id
deriving DecidableEq

/-- The state produced by the default member initializers of VisualOwnable. -/
def initState : Visual := {}

/-- Key codes appearing in key_callback (morph/keys.h mirrors GLFW codes;
only the keys the handler tests are distinguished). -/
inductive MKey
  | q | c | h | l | s | m | z | a | o | p | u | i | y
  | f1 | f2 | f3 | f4 | f5 | f6 | f7 | f8 | f9 | f10
  | left | right | up | down
  | other
deriving DecidableEq

/-- Modifier bits tested by the handlers (keymod::control, keymod::shift). -/
structure KeyMods where
  control : Bool
  shift : Bool
deriving DecidableEq

/-- Key/button action (keyaction::press / release / repeat). -/
inductive KAction
  | press
  | release
  | rpt
deriving DecidableEq

/-- Mouse buttons tested by mouse_button_callback. -/
inductive MouseButton
  | left
  | right
  | other
deriving DecidableEq

/-- A key event as delivered to key_callback. -/
structure KeyEv where
  key : MKey
  mods : KeyMods
  act : KAction
deriving DecidableEq

/-- Control-modifier-only mods. -/
def ctrlMods : KeyMods := ⟨true, false⟩

/-- Shift-modifier-only mods. -/
def shiftMods : KeyMods := ⟨false, true⟩

/-- The Ctrl-o (reduce field of view) key press event. -/
def ctrlO : KeyEv := ⟨MKey.o, ctrlMods, KAction.press⟩

/-- The Ctrl-p (increase field of view) key press event. -/
def ctrlP : KeyEv := ⟨MKey.p, ctrlMods, KAction.press⟩

/-- The Ctrl-y (cycle projection type) key press event. -/
def ctrlY : KeyEv := ⟨MKey.y, ctrlMods, KAction.press⟩

/-- True for the ten function keys tested by the hide-toggle branch. -/
def isFKey (k : MKey) : Bool :=
  match k with
  | MKey.f1 | MKey.f2 | MKey.f3 | MKey.f4 | MKey.f5
  | MKey.f6 | MKey.f7 | MKey.f8 | MKey.f9 | MKey.f10 => true
  | _ => false

/-- The model index requested by a function key (F1 requests index 0, ...,
F10 requests index 9); none for other keys. -/
def fKeyIdx : MKey → Option ℕ
  | MKey.f1 => some 0
  | MKey.f2 => some 1
  | MKey.f3 => some 2
  | MKey.f4 => some 3
  | MKey.f5 => some 4
  | MKey.f6 => some 5
  | MKey.f7 => some 6
  | MKey.f8 => some 7
  | MKey.f9 => some 8
  | MKey.f10 => some 9
  | _ => none

/-- Quit branch of key_callback (owned template parameter true): Ctrl-q calls
signal_to_quit, which sets readyToFinish (the external callback and the
stdout message are I/O, outside the modelled state). -/
def kc_quit (owned : Bool) (k : MKey) (mods : KeyMods) (act : KAction) (st : Visual) : Visual :=
  if owned ∧ k = MKey.q ∧ mods.control ∧ act = KAction.press then
    {st with readyToFinish := true}
  else st

/-- Coordinate-arrows toggle branch: Ctrl-c when the scene is not locked;
sets needs_render. -/
def kc_coord (k : MKey) (mods : KeyMods) (act : KAction) (st : Visual) : Visual × Bool :=
  if ¬st.sceneLocked ∧ k = MKey.c ∧ mods.control ∧ act = KAction.press then
    ({st with showCoordArrows := !st.showCoordArrows}, true)
  else (st, false)

/-- Scene-lock toggle branch: Ctrl-l.  (The Ctrl-h help text, Ctrl-s image
save, Ctrl-m gltf save and Ctrl-z snapshot write branches of the source
perform output only and do not change the modelled scene state.) -/
def kc_lock (k : MKey) (mods : KeyMods) (act : KAction) (st : Visual) : Visual :=
  if k = MKey.l ∧ mods.control ∧ act = KAction.press then
    {st with sceneLocked := !st.sceneLocked}
  else st

/-- Model-select branch: the F1 arm sets selectedVisualModel to 0
unconditionally; the F2..F10 arms set it only when vm.size() exceeds the
requested index.  The source's else-if chain on the key (the arms are
mutually exclusive) is rendered as a match on the key. -/
def kc_select (k : MKey) (act : KAction) (st : Visual) : Visual :=
  match k with
  | MKey.f1 => if act = KAction.press then {st with selectedVisualModel := 0} else st
  | MKey.f2 =>
    if act = KAction.press ∧ st.vm.length > 1 then {st with selectedVisualModel := 1} else st
  | MKey.f3 =>
    if act = KAction.press ∧ st.vm.length > 2 then {st with selectedVisualModel := 2} else st
  | MKey.f4 =>
    if act = KAction.press ∧ st.vm.length > 3 then {st with selectedVisualModel := 3} else st
  | MKey.f5 =>
    if act = KAction.press ∧ st.vm.length > 4 then {st with selectedVisualModel := 4} else st
  | MKey.f6 =>
    if act = KAction.press ∧ st.vm.length > 5 then {st with selectedVisualModel := 5} else st
  | MKey.f7 =>
    if act = KAction.press ∧ st.vm.length > 6 then {st with selectedVisualModel := 6} else st
  | MKey.f8 =>
    if act = KAction.press ∧ st.vm.length > 7 then {st with selectedVisualModel := 7} else st
  | MKey.f9 =>
    if act = KAction.press ∧ st.vm.length > 8 then {st with selectedVisualModel := 8} else st
  | MKey.f10 =>
    if act = KAction.press ∧ st.vm.length > 9 then {st with selectedVisualModel := 9} else st
  | _ => st

/-- Hide-toggle branch: a function key pressed with shift runs
`vm[selectedVisualModel]->toggleHide()` with no bounds check; indexing
outside the vector is undefined behaviour, modelled as none. -/
def kc_hide (k : MKey) (mods : KeyMods) (act : KAction) (st : Visual) : Option Visual :=
  if isFKey k ∧ act = KAction.press ∧ mods.shift then
    if hidx : st.selectedVisualModel < st.vm.length then
      some {st with vm := st.vm.set st.selectedVisualModel
                            (toggleHide (st.vm.get ⟨st.selectedVisualModel, hidx⟩))}
    else none
  else some st

/-- Alpha-decrease branch: shift+left on press or repeat; guarded by
`!vm.empty()`, but `vm[selectedVisualModel]` itself is unchecked, so a
non-empty vector with an out-of-range selection is undefined behaviour. -/
def kc_alphaDec (k : MKey) (mods : KeyMods) (act : KAction) (st : Visual) : Option Visual :=
  if k = MKey.left ∧ (act = KAction.press ∨ act = KAction.rpt) ∧ mods.shift then
    if st.vm.isEmpty then some st
    else if hidx : st.selectedVisualModel < st.vm.length then
      some {st with vm := st.vm.set st.selectedVisualModel
                            (decAlpha (st.vm.get ⟨st.selectedVisualModel, hidx⟩))}
    else none
  else some st

/-- Alpha-increase branch: shift+right on press or repeat; same guards as
the decrease branch. -/
def kc_alphaInc (k : MKey) (mods : KeyMods) (act : KAction) (st : Visual) : Option Visual :=
  if k = MKey.right ∧ (act = KAction.press ∨ act = KAction.rpt) ∧ mods.shift then
    if st.vm.isEmpty then some st
    else if hidx : st.selectedVisualModel < st.vm.length then
      some {st with vm := st.vm.set st.selectedVisualModel
                            (incAlpha (st.vm.get ⟨st.selectedVisualModel, hidx⟩))}
    else none
  else some st

/-- Cylindrical-projection parameter branches: shift+up/down double/halve
cyl_radius; ctrl+up/down double/halve cyl_height (four independent ifs). -/
def kc_cyl (k : MKey) (mods : KeyMods) (act : KAction) (st : Visual) : Visual :=
  let st :=
    if k = MKey.up ∧ (act = KAction.press ∨ act = KAction.rpt) ∧ mods.shift then
      {st with cyl_radius := st.cyl_radius * 2}
    else st
  let st :=
    if k = MKey.down ∧ (act = KAction.press ∨ act = KAction.rpt) ∧ mods.shift then
      {st with cyl_radius := st.cyl_radius * 0.5}
    else st
  let st :=
    if k = MKey.up ∧ (act = KAction.press ∨ act = KAction.rpt) ∧ mods.control then
      {st with cyl_height := st.cyl_height * 2}
    else st
  if k = MKey.down ∧ (act = KAction.press ∨ act = KAction.rpt) ∧ mods.control then
    {st with cyl_height := st.cyl_height * 0.5}
  else st

/-- Reset-view branch: Ctrl-a when the scene is not locked restores
scenetrans, cyl_cam_pos and rotation from their defaults; sets needs_render. -/
def kc_reset (k : MKey) (mods : KeyMods) (act : KAction) (st : Visual) : Visual × Bool :=
  if ¬st.sceneLocked ∧ k = MKey.a ∧ mods.control ∧ act = KAction.press then
    ({st with scenetrans := st.scenetrans_default,
              cyl_cam_pos := st.cyl_cam_pos_default,
              rotn := st.rotn_default}, true)
  else (st, false)

/-- Field-of-view branches: Ctrl-o subtracts 2 then clamps to 2 when the
result is below 1; Ctrl-p adds 2 then clamps to 178 when the result exceeds
179.  Both require the scene to be unlocked. -/
def kc_fov (k : MKey) (mods : KeyMods) (act : KAction) (st : Visual) : Visual :=
  let st :=
    if ¬st.sceneLocked ∧ k = MKey.o ∧ mods.control ∧ act = KAction.press then
      let f := st.fov - 2
      {st with fov := if f < 1 then 2 else f}
    else st
  if ¬st.sceneLocked ∧ k = MKey.p ∧ mods.control ∧ act = KAction.press then
    let f := st.fov + 2
    {st with fov := if f > 179 then 178 else f}
  else st

/-- Near-plane branches: Ctrl-u halves zNear; Ctrl-i doubles it (scene
unlocked). -/
def kc_znear (k : MKey) (mods : KeyMods) (act : KAction) (st : Visual) : Visual :=
  let st :=
    if ¬st.sceneLocked ∧ k = MKey.u ∧ mods.control ∧ act = KAction.press then
      {st with zNear := st.zNear / 2}
    else st
  if ¬st.sceneLocked ∧ k = MKey.i ∧ mods.control ∧ act = KAction.press then
    {st with zNear := st.zNear * 2}
  else st

/-- One step of the projection-type cycle of the Ctrl-y branch
(perspective to orthographic to cylindrical to perspective). -/
def cyclePtype : perspective_type → perspective_type
  | perspective_type.perspective => perspective_type.orthographic
  | perspective_type.orthographic => perspective_type.cylindrical
  | perspective_type.cylindrical => perspective_type.perspective

/-- Projection-cycle branch: Ctrl-y; sets needs_render. -/
def kc_ptype (k : MKey) (mods : KeyMods) (act : KAction) (st : Visual) : Visual × Bool :=
  if k = MKey.y ∧ mods.control ∧ act = KAction.press then
    ({st with ptype := cyclePtype st.ptype}, true)
  else (st, false)

/-- key_callback of VisualOwnable (lines 1189-1404): the branches in source
order, threading the state; returns the new state and needs_render, or none
where the source indexes the vm vector out of bounds (undefined behaviour).
key_callback_extra is the empty default implementation. -/
def key_callback (owned : Bool) (k : MKey) (mods : KeyMods) (act : KAction)
    (st : Visual) : Option (Visual × Bool) :=
  let st := kc_quit owned k mods act st
  let r1 := kc_coord k mods act st
  let st := kc_lock k mods act r1.1
  let st := kc_select k act st
  match kc_hide k mods act st with
  | none => none
  | some st =>
    match kc_alphaDec k mods act st with
    | none => none
    | some st =>
      match kc_alphaInc k mods act st with
      | none => none
      | some st =>
        let st := kc_cyl k mods act st
        let r2 := kc_reset k mods act st
        let st := kc_fov k mods act r2.1
        let st := kc_znear k mods act st
        let r3 := kc_ptype k mods act st
        some (r3.1, r1.2 || r2.2 || r3.2)

/-- Runs a list of key events through key_callback, propagating the
undefined-behaviour marker. -/
def runKeys (owned : Bool) : List KeyEv → Visual → Option Visual
  | [], st => some st
  | e :: rest, st =>
    match key_callback owned e.key e.mods e.act st with
    | none => none
    | some r => runKeys owned rest r.1

/-- scroll_callback (lines 1566-1597).  Locked scene: no-op returning false.
Orthographic: rescale ortho_lb/ortho_rt by yoffset * scenetrans_stepsize,
rejected (no mutation) unless every component of the new lb is below zero
and every component of the new rt is above zero (morph::vec compares all
components against a scalar).  Other projections: xoffset pans scenetrans.x
and cyl_cam_pos.x; yoffset moves scenetrans.z and, rotated by the scene
rotation, accumulates into cyl_cam_pos.  Returns true (render needed). -/
def scroll_callback (xoffset yoffset : ℚ) (st : Visual) : Visual × Bool :=
  if st.sceneLocked then (st, false)
  else if st.ptype = perspective_type.orthographic then
    let lbNew : Vec2 := ⟨st.ortho_lb.x + yoffset * st.scenetrans_stepsize,
                         st.ortho_lb.y + yoffset * st.scenetrans_stepsize⟩
    let rtNew : Vec2 := ⟨st.ortho_rt.x - yoffset * st.scenetrans_stepsize,
                         st.ortho_rt.y - yoffset * st.scenetrans_stepsize⟩
    if lbNew.x < 0 ∧ lbNew.y < 0 ∧ rtNew.x > 0 ∧ rtNew.y > 0 then
      ({st with ortho_lb := lbNew, ortho_rt := rtNew}, true)
    else (st, true)
  else
    let st := {st with
      scenetrans := {st.scenetrans with x := st.scenetrans.x - xoffset * st.scenetrans_stepsize},
      cyl_cam_pos := {st.cyl_cam_pos with x := st.cyl_cam_pos.x + xoffset * st.scenetrans_stepsize}}
    let smy : Vec4 := ⟨0, yoffset * st.scenetrans_stepsize, 0, 1⟩
    let st := {st with scenetrans := {st.scenetrans with z := st.scenetrans.z + smy.y}}
    let sceneview_rotn := mat4OfQuat st.rotn
    ({st with cyl_cam_pos := vec4Add st.cyl_cam_pos (mat4MulVec sceneview_rotn smy)}, true)

/-- Runs a list of (xoffset, yoffset) scroll events through scroll_callback. -/
def runScroll : List (ℚ × ℚ) → Visual → Visual
  | [], st => st
  | e :: rest, st => runScroll rest (scroll_callback e.1 e.2 st).1

/-- The componentwise orthographic-bounds invariant of the spec:
ortho_lb < 0 < ortho_rt in both components. -/
abbrev orthoInv (st : Visual) : Prop :=
  st.ortho_lb.x < 0 ∧ st.ortho_lb.y < 0 ∧ 0 < st.ortho_rt.x ∧ 0 < st.ortho_rt.y

/-- Pixel-to-normalized-device mapping of the cursor callbacks: centre and
scale by half the window width (both axes use the width). -/
def normCoord (w : ℚ) (p : Vec2) : Vec2 :=
  ⟨(p.x - w * 0.5) / (w * 0.5), (p.y - w * 0.5) / (w * 0.5)⟩

/-- Forward-projected depth of the reference plane: project
(0, 0, zref, 1) and take z/w (the unprojection technique of the spec). -/
def projRefZ (proj : Mat4) (zref : ℚ) : ℚ :=
  let pp := mat4MulVec proj ⟨0, 0, zref, 1⟩
  pp.z / pp.w

/-- cursor_position_callback (lines 1414-1518): records the cursor position;
in rotate mode composes a new rotation from the gesture-start position, in
translate mode translates the scene and the cylindrical camera (updating the
press position each move).  Returns the new state and needs_render. -/
def cursor_position_callback (pr : MathPrims) (x y : ℚ) (st : Visual) : Visual × Bool :=
  let st := {st with cursorpos := ⟨x, y⟩}
  if st.rotateMode then
    let p0c := normCoord st.window_w st.mousePressPosition
    let p1c := normCoord st.window_w st.cursorpos
    let coord_z := projRefZ st.projection st.scenetrans.z
    let v0 := mat4MulVec st.invproj ⟨p0c.x, p0c.y, coord_z, 1⟩
    let v1 := mat4MulVec st.invproj ⟨p1c.x, p1c.y, coord_z, 1⟩
    let mmw : Vec3 :=
      if st.rotateModMode then
        ⟨0, 0, -(v1.y / v1.w - v0.y / v0.w) + (v1.x / v1.w - v0.x / v0.w)⟩
      else
        ⟨-(v1.y / v1.w - v0.y / v0.w), -(v1.x / v1.w - v0.x / v0.w), 0⟩
    let rotamount := pr.msqrt (mmw.x * mmw.x + mmw.y * mmw.y + mmw.z * mmw.z) * 40
    let ax := renormalize3 pr ⟨mmw.x * rotamount, mmw.y * rotamount, mmw.z * rotamount⟩
    let tmp4 := mat4MulVec st.invscene ⟨ax.x, ax.y, ax.z, 1⟩
    let axm : Vec3 := ⟨tmp4.x, tmp4.y, tmp4.z⟩
    let rotnQuat := quatOfAxisAngle pr axm (-rotamount * pr.deg2rad)
    ({st with rotnAxis := axm, rotn := quatMul st.savedRotn rotnQuat}, true)
  else if st.translateMode then
    let p0c := normCoord st.window_w st.mousePressPosition
    let p1c := normCoord st.window_w st.cursorpos
    let st := {st with mousePressPosition := st.cursorpos}
    let coord_z := projRefZ st.projection st.scenetrans.z
    let v0 := mat4MulVec st.invproj ⟨p0c.x, p0c.y, coord_z, 1⟩
    let v1 := mat4MulVec st.invproj ⟨p1c.x, p1c.y, coord_z, 1⟩
    let mmx := v1.x / v1.w - v0.x / v0.w
    let mmy := v1.y / v1.w - v0.y / v0.w
    ({st with
        scenetrans := {st.scenetrans with x := st.scenetrans.x + mmx,
                                          y := st.scenetrans.y - mmy},
        cyl_cam_pos := {st.cyl_cam_pos with x := st.cyl_cam_pos.x - mmx,
                                            z := st.cyl_cam_pos.z + mmy}}, true)
  else (st, false)

/-- mouse_button_callback (lines 1520-1546): ignored entirely when the scene
is locked; a press records the press position, snapshots the rotation and
computes the inverse rotation-only scene matrix; the primary button sets
rotate mode (with the about-view-axis sub-mode from ctrl), the secondary
button sets translate mode.  mouse_button_callback_extra is the empty
default implementation. -/
def mouse_button_callback (pr : MathPrims) (button : MouseButton) (act : KAction)
    (mods : KeyMods) (st : Visual) : Visual :=
  if st.sceneLocked then st
  else
    let st :=
      if act = KAction.press then
        {st with mousePressPosition := st.cursorpos,
                 savedRotn := st.rotn,
                 scene := mat4OfQuat st.rotn,
                 invscene := pr.matInv (mat4OfQuat st.rotn)}
      else st
    if button = MouseButton.left then
      {st with rotateModMode := mods.control,
               rotateMode := act = KAction.press,
               translateMode := false}
    else if button = MouseButton.right then
      {st with rotateMode := false,
               translateMode := act = KAction.press}
    else st

/-- Runs a list of cursor positions through cursor_position_callback. -/
def runCursor (pr : MathPrims) : List (ℚ × ℚ) → Visual → Visual
  | [], st => st
  | mv :: rest, st => runCursor pr rest (cursor_position_callback pr mv.1 mv.2 st).1

/-- removeVisualModel(VisualModel* vmp) (lines 313-324): scan for the first
owned model whose address equals vmp and erase it; no match leaves the
vector untouched.  Rendered as structural recursion on the vector. -/
def removeVisualModelPtr : List VModel → ℕ → List VModel
  | [], _ => []
  | v :: rest, p => if v.addr = p then rest else v :: removeVisualModelPtr rest p

/-- validVisualModel (lines 288-298): returns the pointer only when some
owned model has that address. -/
def validVisualModel (l : List VModel) (p : ℕ) : Option ℕ :=
  if l.any (fun v => v.addr = p) then some p else none

/-- The pixel transform of saveImage (lines 223-235): byte k of the written
image, for an h-row framebuffer of 4*w bytes per row read bottom-up.  Row r
of the output is row h-1-r of the capture; with transparent_bg false every
fourth byte (the alpha channel) is forced to 255, otherwise bytes are copied
unchanged. -/
def saveImageRbits (w h : ℕ) (transparent_bg : Bool) (bits : ℕ → ℕ) (k : ℕ) : ℕ :=
  let rowlen := 4 * w
  let r := k / rowlen
  let j := k % rowlen
  let src := bits ((h - 1 - r) * rowlen + j)
  if transparent_bg then src
  else if j % 4 = 3 then 255 else src

/-- The snapshot-file load of init_gl (lines 1041-1059): a parse failure
(absent or malformed file) leaves the state untouched; otherwise the seven
optional fields are read in source order (scenetrans x, y, z; copy of
scenetrans into scenetrans_default; rotation w, x, y, z), and a type error
on any read aborts the remaining reads while keeping the assignments already
made (the catch-all swallows the exception after the partial mutation). -/
def loadVisualJson (vconf : Option VConf) (s0 : Visual) : Visual :=
  match vconf with
  | none => s0
  | some v =>
    match jget v.scenetrans_x s0.scenetrans.x with
    | none => s0
    | some tx =>
      let s1 := {s0 with scenetrans := {s0.scenetrans with x := tx}}
      match jget v.scenetrans_y s1.scenetrans.y with
      | none => s1
      | some ty =>
        let s2 := {s1 with scenetrans := {s1.scenetrans with y := ty}}
        match jget v.scenetrans_z s2.scenetrans.z with
        | none => s2
        | some tz =>
          let s3 := {s2 with scenetrans := {s2.scenetrans with z := tz}}
          let s4 := {s3 with scenetrans_default := s3.scenetrans}
          match jget v.scenerotn_w s4.rotn.w with
          | none => s4
          | some rw =>
            let s5 := {s4 with rotn := {s4.rotn with w := rw}}
            match jget v.scenerotn_x s5.rotn.x with
            | none => s5
            | some rx =>
              let s6 := {s5 with rotn := {s5.rotn with x := rx}}
              match jget v.scenerotn_y s6.rotn.y with
              | none => s6
              | some ry =>
                let s7 := {s6 with rotn := {s6.rotn with y := ry}}
                match jget v.scenerotn_z s7.rotn.z with
                | none => s7
                | some rz => {s7 with rotn := {s7.rotn with z := rz}}

/-- Spec-side description (for the refinement statement of the snapshot
load): the value a component takes given its optional field - the field's
number when present and numeric, the current value otherwise. -/
def updField : Option JVal → ℚ → ℚ
  | some (JVal.num q), _ => q
  | _, cur => cur

/-- Spec-side description: the translation produced by a well-formed
snapshot object. -/
def applyTransSpec (v : VConf) (t : Vec3) : Vec3 :=
  ⟨updField v.scenetrans_x t.x, updField v.scenetrans_y t.y, updField v.scenetrans_z t.z⟩

/-- Spec-side description: the rotation produced by a well-formed snapshot
object. -/
def applyRotnSpec (v : VConf) (r : Quat) : Quat :=
  ⟨updField v.scenerotn_w r.w, updField v.scenerotn_x r.x,
   updField v.scenerotn_y r.y, updField v.scenerotn_z r.z⟩

/-- A snapshot object is well typed when no present field is non-numeric. -/
abbrev wellTypedVConf (v : VConf) : Prop :=
  v.scenetrans_x ≠ some JVal.nonNum ∧ v.scenetrans_y ≠ some JVal.nonNum ∧
  v.scenetrans_z ≠ some JVal.nonNum ∧ v.scenerotn_w ≠ some JVal.nonNum ∧
  v.scenerotn_x ≠ some JVal.nonNum ∧ v.scenerotn_y ≠ some JVal.nonNum ∧
  v.scenerotn_z ≠ some JVal.nonNum

/-- A scene in orthographic projection with otherwise default state. -/
def orthoState : Visual := {initState with ptype := perspective_type.orthographic}

/-- A locked scene with otherwise default state. -/
def lockedState : Visual := {initState with sceneLocked := true}

/-- A state with an empty registry but a stale non-zero selection (reachable:
add three models, press F3, then remove all three models). -/
def staleSelState : Visual := {initState with selectedVisualModel := 2}

/-- Snapshot object whose scenetrans_x is numeric but whose scenerotn_w is
ill typed: the read of scenerotn_w throws after scenetrans has been
mutated. -/
def partialConf : VConf := {scenetrans_x := some (JVal.num 1.5), scenerotn_w := some JVal.nonNum}

/-- A well-typed snapshot object carrying two of the seven fields. -/
def goodConf : VConf := {scenetrans_x := some (JVal.num 2), scenerotn_w := some (JVal.num 7)}

/-
Helper lemmas: per-branch behaviour of the key_callback pieces.
-/

theorem kcQuit_pres (owned : Bool) (k : MKey) (mods : KeyMods) (act : KAction) (st : Visual) :
    (kc_quit owned k mods act st).sceneLocked = st.sceneLocked ∧
    (kc_quit owned k mods act st).selectedVisualModel = st.selectedVisualModel := by
  unfold kc_quit; split_ifs <;> exact ⟨rfl, rfl⟩

theorem kcCoord_pres (k : MKey) (mods : KeyMods) (act : KAction) (st : Visual) :
    (kc_coord k mods act st).1.sceneLocked = st.sceneLocked ∧
    (kc_coord k mods act st).1.selectedVisualModel = st.selectedVisualModel := by
  unfold kc_coord; split_ifs <;> exact ⟨rfl, rfl⟩

theorem kcCoord_snd (k : MKey) (mods : KeyMods) (act : KAction) (st : Visual) :
    (kc_coord k mods act st).2 = true ↔
      (st.sceneLocked = false ∧ k = MKey.c ∧ mods.control = true ∧ act = KAction.press) := by
  unfold kc_coord; split_ifs with hc <;> simp_all

theorem kcLock_pres_sel (k : MKey) (mods : KeyMods) (act : KAction) (st : Visual) :
    (kc_lock k mods act st).selectedVisualModel = st.selectedVisualModel := by
  unfold kc_lock; split_ifs <;> rfl

theorem kcLock_of_ne (k : MKey) (mods : KeyMods) (act : KAction) (st : Visual)
    (h : k ≠ MKey.l) : kc_lock k mods act st = st := by
  unfold kc_lock; rw [if_neg]; simp [h]

theorem kcSelect_pres_lock (k : MKey) (act : KAction) (st : Visual) :
    (kc_select k act st).sceneLocked = st.sceneLocked := by
  unfold kc_select
  cases k <;> first | rfl | (dsimp only; split_ifs <;> rfl)

theorem kcHide_pres (k : MKey) (mods : KeyMods) (act : KAction) (st st2 : Visual)
    (h : kc_hide k mods act st = some st2) :
    st2.sceneLocked = st.sceneLocked ∧ st2.selectedVisualModel = st.selectedVisualModel := by
  unfold kc_hide at h
  split_ifs at h
  all_goals (injection h with h2; subst h2; exact ⟨rfl, rfl⟩)

theorem kcAlphaDec_pres (k : MKey) (mods : KeyMods) (act : KAction) (st st2 : Visual)
    (h : kc_alphaDec k mods act st = some st2) :
    st2.sceneLocked = st.sceneLocked ∧ st2.selectedVisualModel = st.selectedVisualModel := by
  unfold kc_alphaDec at h
  split_ifs at h
  all_goals (injection h with h2; subst h2; exact ⟨rfl, rfl⟩)

theorem kcAlphaInc_pres (k : MKey) (mods : KeyMods) (act : KAction) (st st2 : Visual)
    (h : kc_alphaInc k mods act st = some st2) :
    st2.sceneLocked = st.sceneLocked ∧ st2.selectedVisualModel = st.selectedVisualModel := by
  unfold kc_alphaInc at h
  split_ifs at h
  all_goals (injection h with h2; subst h2; exact ⟨rfl, rfl⟩)

theorem kcCyl_pres (k : MKey) (mods : KeyMods) (act : KAction) (st : Visual) :
    (kc_cyl k mods act st).sceneLocked = st.sceneLocked ∧
    (kc_cyl k mods act st).selectedVisualModel = st.selectedVisualModel := by
  unfold kc_cyl; split_ifs <;> exact ⟨rfl, rfl⟩

theorem kcReset_pres (k : MKey) (mods : KeyMods) (act : KAction) (st : Visual) :
    (kc_reset k mods act st).1.sceneLocked = st.sceneLocked ∧
    (kc_reset k mods act st).1.selectedVisualModel = st.selectedVisualModel := by
  unfold kc_reset; split_ifs <;> exact ⟨rfl, rfl⟩

theorem kcReset_snd (k : MKey) (mods : KeyMods) (act : KAction) (st : Visual) :
    (kc_reset k mods act st).2 = true ↔
      (st.sceneLocked = false ∧ k = MKey.a ∧ mods.control = true ∧ act = KAction.press) := by
  unfold kc_reset; split_ifs with hc <;> simp_all

theorem kcFov_pres (k : MKey) (mods : KeyMods) (act : KAction) (st : Visual) :
    (kc_fov k mods act st).sceneLocked = st.sceneLocked ∧
    (kc_fov k mods act st).selectedVisualModel = st.selectedVisualModel := by
  constructor <;> (simp only [kc_fov]; split_ifs <;> rfl)

theorem kcZnear_pres (k : MKey) (mods : KeyMods) (act : KAction) (st : Visual) :
    (kc_znear k mods act st).sceneLocked = st.sceneLocked ∧
    (kc_znear k mods act st).selectedVisualModel = st.selectedVisualModel := by
  constructor <;> (simp only [kc_znear]; split_ifs <;> rfl)

theorem kcPtype_pres (k : MKey) (mods : KeyMods) (act : KAction) (st : Visual) :
    (kc_ptype k mods act st).1.sceneLocked = st.sceneLocked ∧
    (kc_ptype k mods act st).1.selectedVisualModel = st.selectedVisualModel := by
  unfold kc_ptype; split_ifs <;> exact ⟨rfl, rfl⟩

theorem kcPtype_snd (k : MKey) (mods : KeyMods) (act : KAction) (st : Visual) :
    (kc_ptype k mods act st).2 = true ↔
      (k = MKey.y ∧ mods.control = true ∧ act = KAction.press) := by
  unfold kc_ptype; split_ifs with hc <;> simp_all

/-
Helper lemmas: whole-callback behaviour on the concrete events used by the
claims.
-/

theorem key_cb_ctrlO (owned : Bool) (st : Visual) (hl : st.sceneLocked = false) :
    key_callback owned MKey.o ctrlMods KAction.press st =
      some ({st with fov := if st.fov - 2 < 1 then 2 else st.fov - 2}, false) := by
  simp [key_callback, kc_quit, kc_coord, kc_lock, kc_select, kc_hide, kc_alphaDec,
        kc_alphaInc, kc_cyl, kc_reset, kc_fov, kc_znear, kc_ptype, isFKey, ctrlMods, hl]

theorem key_cb_ctrlP (owned : Bool) (st : Visual) (hl : st.sceneLocked = false) :
    key_callback owned MKey.p ctrlMods KAction.press st =
      some ({st with fov := if st.fov + 2 > 179 then 178 else st.fov + 2}, false) := by
  simp [key_callback, kc_quit, kc_coord, kc_lock, kc_select, kc_hide, kc_alphaDec,
        kc_alphaInc, kc_cyl, kc_reset, kc_fov, kc_znear, kc_ptype, isFKey, ctrlMods, hl]

theorem key_cb_ctrlY (owned : Bool) (st : Visual) :
    key_callback owned MKey.y ctrlMods KAction.press st =
      some ({st with ptype := cyclePtype st.ptype}, true) := by
  simp [key_callback, kc_quit, kc_coord, kc_lock, kc_select, kc_hide, kc_alphaDec,
        kc_alphaInc, kc_cyl, kc_reset, kc_fov, kc_znear, kc_ptype, isFKey, ctrlMods]

/-- One orthographic-scroll step preserves the bounds invariant, the
projection type and the lock flag. -/
theorem scroll_ortho_pres (xo yo : ℚ) (st : Visual)
    (hp : st.ptype = perspective_type.orthographic) (hinv : orthoInv st) :
    orthoInv (scroll_callback xo yo st).1 ∧
    (scroll_callback xo yo st).1.ptype = perspective_type.orthographic ∧
    (scroll_callback xo yo st).1.sceneLocked = st.sceneLocked := by
  simp only [scroll_callback]
  split_ifs with h1 h2
  · exact ⟨hinv, hp, rfl⟩
  · exact ⟨⟨h2.1, h2.2.1, h2.2.2.1, h2.2.2.2⟩, hp, rfl⟩
  · exact ⟨hinv, hp, rfl⟩

/-- C1: for every sequence of scroll events applied while the projection type
is orthographic and the scene is unlocked, the componentwise invariant
ortho_lb < 0 < ortho_rt holds after each event; and a scroll event whose
rescale would violate the invariant leaves both ortho_lb and ortho_rt
unchanged (rejected with no mutation). -/
theorem C1_ortho_scroll (st : Visual) (evs : List (ℚ × ℚ))
    (hp : st.ptype = perspective_type.orthographic) (hl : st.sceneLocked = false)
    (hinv : orthoInv st) :
    (∀ n : ℕ, orthoInv (runScroll (List.take n evs) st)) ∧
    (∀ xo yo : ℚ,
      ¬(st.ortho_lb.x + yo * st.scenetrans_stepsize < 0 ∧
        st.ortho_lb.y + yo * st.scenetrans_stepsize < 0 ∧
        st.ortho_rt.x - yo * st.scenetrans_stepsize > 0 ∧
        st.ortho_rt.y - yo * st.scenetrans_stepsize > 0) →
      (scroll_callback xo yo st).1.ortho_lb = st.ortho_lb ∧
      (scroll_callback xo yo st).1.ortho_rt = st.ortho_rt) := by
  constructor
  · have main : ∀ (l : List (ℚ × ℚ)) (s : Visual),
        s.ptype = perspective_type.orthographic → orthoInv s → orthoInv (runScroll l s) := by
      intro l
      induction l with
      | nil => exact fun s _ h2 => h2
      | cons e rest ih =>
        intro s h1 h2
        have hstep := scroll_ortho_pres e.1 e.2 s h1 h2
        exact ih _ hstep.2.1 hstep.1
    exact fun n => main (List.take n evs) st hp hinv
  · intro xo yo hguard
    simp only [scroll_callback]
    split_ifs with h1
    · exact ⟨rfl, rfl⟩
    · exact ⟨rfl, rfl⟩

/-- Witness for C1: the default scene switched to orthographic projection,
scrolled once by (0, 1). -/
theorem C1_ortho_scroll_w :
    (orthoState.ptype = perspective_type.orthographic ∧ orthoState.sceneLocked = false ∧
      orthoInv orthoState) ∧
    orthoInv (runScroll (List.take 1 [((0 : ℚ), (1 : ℚ))]) orthoState) := by
  have h1 : orthoState.ptype = perspective_type.orthographic := rfl
  have h2 : orthoState.sceneLocked = false := rfl
  have h3 : orthoInv orthoState := by norm_num [orthoState, initState, orthoInv]
  exact ⟨⟨h1, h2, h3⟩, (C1_ortho_scroll orthoState [((0 : ℚ), (1 : ℚ))] h1 h2 h3).1 1⟩

/-- C9: applying the projection-type cycle operation (a Ctrl-y key press)
three times in succession returns ptype to its original value, for every
starting state and hence every starting value of ptype. -/
theorem C9_ptype_three_cycle (st : Visual) :
    ∃ s3, runKeys true [ctrlY, ctrlY, ctrlY] st = some s3 ∧ s3.ptype = st.ptype := by
  refine ⟨{st with ptype := cyclePtype (cyclePtype (cyclePtype st.ptype))}, ?_, ?_⟩
  · simp [runKeys, ctrlY, key_cb_ctrlY]
  · have h3 : ∀ p, cyclePtype (cyclePtype (cyclePtype p)) = p := fun p => by cases p <;> rfl
    simp [h3]

/-- Witness for C9: the three-fold cycle applied to the default state. -/
theorem C9_ptype_three_cycle_w :
    ∃ s3, runKeys true [ctrlY, ctrlY, ctrlY] initState = some s3 ∧
      s3.ptype = initState.ptype :=
  C9_ptype_three_cycle initState

/-- C3: evaluation at the failing input.  With the registry empty, a shift+F1
press reaches the unguarded vm[selectedVisualModel]->toggleHide() and indexes
an empty vector (undefined behaviour, modelled as none), whereas the
alpha-adjust keys shift+left and shift+right are guarded by !vm.empty() and
are rejected no-ops that mutate nothing and raise nothing. -/
theorem C3_empty_registry_eval :
    key_callback true MKey.f1 shiftMods KAction.press initState = none ∧
    key_callback true MKey.left shiftMods KAction.press initState = some (initState, false) ∧
    key_callback true MKey.right shiftMods KAction.press initState = some (initState, false) := by
  refine ⟨?_, ?_, ?_⟩ <;>
    simp [key_callback, kc_quit, kc_coord, kc_lock, kc_select, kc_hide, kc_alphaDec,
          kc_alphaInc, kc_cyl, kc_reset, kc_fov, kc_znear, kc_ptype, isFKey, shiftMods,
          initState]

/-- C10: removeVisualModel by pointer identity: an address owned by no model
in the registry leaves the registry unchanged (no-op, no error); when the
address is owned, exactly the first model whose address equals it is erased
and all other models are retained in order. -/
theorem C10_removeVisualModel (p : ℕ) :
    (∀ l : List VModel, (∀ v ∈ l, v.addr ≠ p) → removeVisualModelPtr l p = l) ∧
    (∀ (pre post : List VModel) (v : VModel), v.addr = p →
      (∀ u ∈ pre, u.addr ≠ p) →
      removeVisualModelPtr (pre ++ v :: post) p = pre ++ post) := by
  constructor
  · intro l hl
    induction l with
    | nil => rfl
    | cons a rest ih =>
      have ha : a.addr ≠ p := hl a (List.mem_cons_self a rest)
      simp only [removeVisualModelPtr, if_neg ha, List.cons.injEq, true_and]
      exact ih (fun v hv => hl v (List.mem_cons_of_mem a hv))
  · intro pre post v hv hpre
    induction pre with
    | nil => simp [removeVisualModelPtr, hv]
    | cons u rest ih =>
      have hu : u.addr ≠ p := hpre u (List.mem_cons_self u rest)
      simp only [List.cons_append, removeVisualModelPtr, if_neg hu, List.cons.injEq, true_and]
      exact ih (fun w hw => hpre w (List.mem_cons_of_mem u hw))

/-- Witness for C10: address 5 absent from a one-model registry is a no-op;
removing the owned address 5 from a registry holding addresses 1, 5, 5
erases exactly the first model with address 5. -/
theorem C10_removeVisualModel_w :
    removeVisualModelPtr [⟨1, 1, false, false⟩] 5 = [⟨1, 1, false, false⟩] ∧
    removeVisualModelPtr [⟨1, 1, false, false⟩, ⟨5, 1, false, false⟩, ⟨5, 1, true, false⟩] 5 =
      [⟨1, 1, false, false⟩, ⟨5, 1, true, false⟩] := by
  constructor
  · exact (C10_removeVisualModel 5).1 [⟨1, 1, false, false⟩] (by decide)
  · exact (C10_removeVisualModel 5).2 [⟨1, 1, false, false⟩] [⟨5, 1, true, false⟩]
      ⟨5, 1, false, false⟩ rfl (by decide)

/-- C8: the saveImage pixel transform.  With transparent_bg = true every
captured byte, alpha values included, is copied unchanged (rows flipped);
with transparent_bg = false the alpha byte of every pixel is forced to 255
(so in particular every non-background pixel has full opacity) while colour
bytes are copied unchanged. -/
theorem C8_saveImage_alpha (w h r j : ℕ) (bits : ℕ → ℕ) (hr : r < h) (hj : j < 4 * w) :
    (saveImageRbits w h true bits (r * (4 * w) + j) = bits ((h - 1 - r) * (4 * w) + j)) ∧
    (j % 4 = 3 → saveImageRbits w h false bits (r * (4 * w) + j) = 255) ∧
    (j % 4 ≠ 3 → saveImageRbits w h false bits (r * (4 * w) + j) =
      bits ((h - 1 - r) * (4 * w) + j)) := by
  have hdiv : (r * (4 * w) + j) / (4 * w) = r := by
    rw [Nat.mul_comm r (4 * w), Nat.mul_add_div (Nat.lt_of_le_of_lt (Nat.zero_le j) hj),
        Nat.div_eq_of_lt hj, Nat.add_zero]
  have hmod : (r * (4 * w) + j) % (4 * w) = j := by
    rw [Nat.mul_comm r (4 * w), Nat.mul_add_mod, Nat.mod_eq_of_lt hj]
  refine ⟨?_, ?_, ?_⟩
  · simp [saveImageRbits, hdiv, hmod]
  · intro h3; simp [saveImageRbits, hdiv, hmod, h3]
  · intro h3; simp [saveImageRbits, hdiv, hmod, h3]

/-- One Ctrl-o or Ctrl-p press on an unlocked scene succeeds and keeps fov of
the form 2(n+1) with n at most 88 (an even value in [2, 178]), and keeps the
scene unlocked. -/
theorem fov_step (st : Visual) (e : KeyEv)
    (he : e = ctrlO ∨ e = ctrlP) (hl : st.sceneLocked = false)
    (hn : ∃ n : ℕ, st.fov = 2 * ((n : ℚ) + 1) ∧ n ≤ 88) :
    ∃ r : Visual × Bool, key_callback true e.key e.mods e.act st = some r ∧
      r.1.sceneLocked = false ∧ ∃ n : ℕ, r.1.fov = 2 * ((n : ℚ) + 1) ∧ n ≤ 88 := by
  obtain ⟨n, hfov, hn88⟩ := hn
  rcases he with rfl | rfl
  · refine ⟨({st with fov := if st.fov - 2 < 1 then 2 else st.fov - 2}, false),
      key_cb_ctrlO true st hl, hl, ?_⟩
    rcases n with _ | m
    · refine ⟨0, ?_, by norm_num⟩
      show (if st.fov - 2 < 1 then (2 : ℚ) else st.fov - 2) = 2 * ((0 : ℚ) + 1)
      rw [hfov]; norm_num
    · refine ⟨m, ?_, Nat.le_of_succ_le hn88⟩
      show (if st.fov - 2 < 1 then (2 : ℚ) else st.fov - 2) = 2 * ((m : ℚ) + 1)
      rw [hfov]
      have hm0 : (0 : ℚ) ≤ (m : ℚ) := Nat.cast_nonneg m
      have hnc : ¬((2 : ℚ) * ((↑(m + 1) : ℚ) + 1) - 2 < 1) := by push_cast; linarith
      rw [if_neg hnc]; push_cast; ring
  · refine ⟨({st with fov := if st.fov + 2 > 179 then 178 else st.fov + 2}, false),
      key_cb_ctrlP true st hl, hl, ?_⟩
    by_cases hc : n = 88
    · subst hc
      refine ⟨88, ?_, le_refl 88⟩
      show (if st.fov + 2 > 179 then (178 : ℚ) else st.fov + 2) = 2 * ((88 : ℚ) + 1)
      rw [hfov]; norm_num
    · have h87 : n ≤ 87 := by omega
      refine ⟨n + 1, ?_, by omega⟩
      show (if st.fov + 2 > 179 then (178 : ℚ) else st.fov + 2) = 2 * ((↑(n + 1) : ℚ) + 1)
      rw [hfov]
      have hcast : (n : ℚ) ≤ 87 := by exact_mod_cast h87
      have hnc : ¬((2 : ℚ) * ((n : ℚ) + 1) + 2 > 179) := by linarith
      rw [if_neg hnc]; push_cast; ring

/-- Running any sequence of Ctrl-o / Ctrl-p presses from an unlocked state
with fov of the form 2(n+1), n at most 88, succeeds and preserves that
shape. -/
theorem fov_run (evs : List KeyEv) (st : Visual)
    (hl : st.sceneLocked = false)
    (hn : ∃ n : ℕ, st.fov = 2 * ((n : ℚ) + 1) ∧ n ≤ 88)
    (he : ∀ e ∈ evs, e = ctrlO ∨ e = ctrlP) :
    ∃ s2, runKeys true evs st = some s2 ∧ s2.sceneLocked = false ∧
      ∃ n : ℕ, s2.fov = 2 * ((n : ℚ) + 1) ∧ n ≤ 88 := by
  induction evs generalizing st with
  | nil => exact ⟨st, rfl, hl, hn⟩
  | cons e rest ih =>
    obtain ⟨r, hr, hl2, hn2⟩ := fov_step st e (he e (List.mem_cons_self e rest)) hl hn
    obtain ⟨s2, hs2, h3, h4⟩ := ih r.1 hl2 hn2 (fun x hx => he x (List.mem_cons_of_mem e hx))
    refine ⟨s2, ?_, h3, h4⟩
    simp [runKeys, hr, hs2]

/-- C2: starting from the default field of view (fov = 30) with the scene
unlocked, every sequence of Ctrl-o (decrease by 2) and Ctrl-p (increase by 2)
presses keeps fov within [2, 178] after every event; and applying the
decrease 20 times from the default state leaves fov clamped at exactly 2. -/
theorem C2_fov_clamp (st : Visual) (evs : List KeyEv)
    (hf : st.fov = 30) (hl : st.sceneLocked = false)
    (he : ∀ e ∈ evs, e = ctrlO ∨ e = ctrlP) :
    (∀ n : ℕ, ∃ s2, runKeys true (List.take n evs) st = some s2 ∧
      2 ≤ s2.fov ∧ s2.fov ≤ 178) ∧
    ∃ s20, runKeys true (List.replicate 20 ctrlO) initState = some s20 ∧ s20.fov = 2 := by
  constructor
  · intro n
    have hn : ∃ m : ℕ, st.fov = 2 * ((m : ℚ) + 1) ∧ m ≤ 88 :=
      ⟨14, by rw [hf]; norm_num, by norm_num⟩
    obtain ⟨s2, h1, _, m, hm, hm88⟩ := fov_run (List.take n evs) st hl hn
      (fun e hx => he e (List.take_subset n evs hx))
    refine ⟨s2, h1, ?_, ?_⟩
    · rw [hm]; have h0 : (0 : ℚ) ≤ (m : ℚ) := Nat.cast_nonneg m; linarith
    · rw [hm]
      have h88 : (m : ℚ) ≤ 88 := by exact_mod_cast hm88
      linarith
  · refine ⟨{initState with fov := 2}, ?_, rfl⟩
    norm_num [runKeys, List.replicate, key_cb_ctrlO, initState, ctrlO]

/-- Witness for C2: the default state, one Ctrl-o press. -/
theorem C2_fov_clamp_w :
    (initState.fov = 30 ∧ initState.sceneLocked = false) ∧
    ∃ s2, runKeys true (List.take 1 [ctrlO]) initState = some s2 ∧
      2 ≤ s2.fov ∧ s2.fov ≤ 178 := by
  exact ⟨⟨rfl, rfl⟩,
    (C2_fov_clamp initState [ctrlO] rfl rfl
      (fun e hx => Or.inl (List.mem_singleton.mp hx))).1 1⟩

/-- A well-typed field read agrees with the spec-side description. -/
theorem jget_wt (o : Option JVal) (cur : ℚ) (h : o ≠ some JVal.nonNum) :
    jget o cur = some (updField o cur) := by
  match o with
  | none => rfl
  | some (JVal.num q) => rfl
  | some JVal.nonNum => exact absurd rfl h

/-- C6 (amended): the snapshot load never raises (it is a total function of
the parse outcome); a parse failure or absent file leaves the state exactly
unchanged; and a parseable object whose present fields are all numeric
overwrites exactly the corresponding components of scenetrans and the
rotation, copies the resulting scenetrans into scenetrans_default, and leaves
every other part of the state unchanged (absent fields keep current
values). -/
theorem C6_snapshot_load (s0 : Visual) (v : VConf) (hw : wellTypedVConf v) :
    loadVisualJson none s0 = s0 ∧
    loadVisualJson (some v) s0 =
      {s0 with scenetrans := applyTransSpec v s0.scenetrans,
               scenetrans_default := applyTransSpec v s0.scenetrans,
               rotn := applyRotnSpec v s0.rotn} := by
  obtain ⟨w1, w2, w3, w4, w5, w6, w7⟩ := hw
  refine ⟨rfl, ?_⟩
  simp only [loadVisualJson, jget_wt _ _ w1, jget_wt _ _ w2, jget_wt _ _ w3,
             jget_wt _ _ w4, jget_wt _ _ w5, jget_wt _ _ w6, jget_wt _ _ w7]
  simp [applyTransSpec, applyRotnSpec]

/-- Witness for C6: the well-typed two-field snapshot object applied to the
default state. -/
theorem C6_snapshot_load_w :
    wellTypedVConf goodConf ∧
    loadVisualJson (some goodConf) initState =
      {initState with scenetrans := applyTransSpec goodConf initState.scenetrans,
                      scenetrans_default := applyTransSpec goodConf initState.scenetrans,
                      rotn := applyRotnSpec goodConf initState.rotn} := by
  have hw : wellTypedVConf goodConf := by decide
  exact ⟨hw, (C6_snapshot_load initState goodConf hw).2⟩

/-- C6 counterexample: a parseable snapshot whose scenetrans_x is numeric but
whose scenerotn_w is not.  The failure is swallowed silently, but scenetrans
and scenetrans_default have already been overwritten, so the state is not
"exactly as it was before the load attempt". -/
theorem C6_snapshot_load_cex :
    (loadVisualJson (some partialConf) initState).scenetrans ≠ initState.scenetrans ∧
    (loadVisualJson (some partialConf) initState).scenetrans_default ≠
      initState.scenetrans_default := by
  constructor <;> norm_num [loadVisualJson, partialConf, jget, initState]

/-- A cursor move with no gesture mode active only records the cursor
position and reports no render needed. -/
theorem cursor_idle (pr : MathPrims) (x y : ℚ) (st : Visual)
    (hr : st.rotateMode = false) (ht : st.translateMode = false) :
    cursor_position_callback pr x y st = ({st with cursorpos := ⟨x, y⟩}, false) := by
  simp [cursor_position_callback, hr, ht]

/-- A mouse-button event on a locked scene is ignored entirely. -/
theorem mouse_locked (pr : MathPrims) (b : MouseButton) (act : KAction) (mods : KeyMods)
    (st : Visual) (hl : st.sceneLocked = true) :
    mouse_button_callback pr b act mods st = st := by
  simp [mouse_button_callback, hl]

/-- runCursor distributes over list append. -/
theorem runCursor_append (pr : MathPrims) (l1 l2 : List (ℚ × ℚ)) (st : Visual) :
    runCursor pr (l1 ++ l2) st = runCursor pr l2 (runCursor pr l1 st) := by
  induction l1 generalizing st with
  | nil => rfl
  | cons mv rest ih => simp [runCursor, ih]

/-- With no gesture mode active, any sequence of cursor moves keeps both
modes off and leaves scenetrans and cyl_cam_pos unchanged. -/
theorem runCursor_idle (pr : MathPrims) (l : List (ℚ × ℚ)) (st : Visual)
    (hr : st.rotateMode = false) (ht : st.translateMode = false) :
    (runCursor pr l st).rotateMode = false ∧ (runCursor pr l st).translateMode = false ∧
    (runCursor pr l st).scenetrans = st.scenetrans ∧
    (runCursor pr l st).cyl_cam_pos = st.cyl_cam_pos := by
  induction l generalizing st with
  | nil => exact ⟨hr, ht, rfl, rfl⟩
  | cons mv rest ih =>
    simp only [runCursor, cursor_idle pr mv.1 mv.2 st hr ht]
    exact ih {st with cursorpos := ⟨mv.1, mv.2⟩} hr ht

/-- C7: if the scene is locked before a translate gesture begins (no gesture
mode active), the gesture's button press followed by any sequence of cursor
moves leaves scenetrans and cyl_cam_pos unchanged, while cursorpos still
tracks every move: after any prefix of moves ending in mv, cursorpos equals
mv.  The cursor-move return value is not constrained. -/
theorem C7_locked_translate (pr : MathPrims) (st : Visual) (button : MouseButton)
    (bmods : KeyMods) (pre : List (ℚ × ℚ)) (mv : ℚ × ℚ)
    (hl : st.sceneLocked = true) (hr : st.rotateMode = false) (ht : st.translateMode = false) :
    (runCursor pr (pre ++ [mv])
        (mouse_button_callback pr button KAction.press bmods st)).scenetrans = st.scenetrans ∧
    (runCursor pr (pre ++ [mv])
        (mouse_button_callback pr button KAction.press bmods st)).cyl_cam_pos = st.cyl_cam_pos ∧
    (runCursor pr (pre ++ [mv])
        (mouse_button_callback pr button KAction.press bmods st)).cursorpos = ⟨mv.1, mv.2⟩ := by
  obtain ⟨i1, i2, i3, i4⟩ := runCursor_idle pr pre st hr ht
  refine ⟨?_, ?_, ?_⟩ <;>
    rw [mouse_locked pr button KAction.press bmods st hl, runCursor_append,
        show runCursor pr [mv] (runCursor pr pre st) =
          (cursor_position_callback pr mv.1 mv.2 (runCursor pr pre st)).1 from rfl,
        cursor_idle pr mv.1 mv.2 (runCursor pr pre st) i1 i2]
  · exact i3
  · exact i4

/-- Witness for C7: a locked default scene, a right-button press, one cursor
move to (1, 2). -/
theorem C7_locked_translate_w :
    (lockedState.sceneLocked = true ∧ lockedState.rotateMode = false ∧
      lockedState.translateMode = false) ∧
    (runCursor zeroPrims ([] ++ [((1 : ℚ), (2 : ℚ))])
        (mouse_button_callback zeroPrims MouseButton.right KAction.press ctrlMods
          lockedState)).scenetrans = lockedState.scenetrans := by
  exact ⟨⟨rfl, rfl, rfl⟩,
    (C7_locked_translate zeroPrims lockedState MouseButton.right ctrlMods []
      ((1 : ℚ), (2 : ℚ)) rfl rfl rfl).1⟩

/-- The quit branch does not touch the registry. -/
theorem kcQuit_vm (owned : Bool) (k : MKey) (mods : KeyMods) (act : KAction) (st : Visual) :
    (kc_quit owned k mods act st).vm = st.vm := by
  unfold kc_quit; split_ifs <;> rfl

/-- The coordinate-arrows branch does not touch the registry. -/
theorem kcCoord_vm (k : MKey) (mods : KeyMods) (act : KAction) (st : Visual) :
    (kc_coord k mods act st).1.vm = st.vm := by
  unfold kc_coord; split_ifs <;> rfl

/-- The lock branch does not touch the registry. -/
theorem kcLock_vm (k : MKey) (mods : KeyMods) (act : KAction) (st : Visual) :
    (kc_lock k mods act st).vm = st.vm := by
  unfold kc_lock; split_ifs <;> rfl

/-- An out-of-range model-select request on F2..F10 leaves the state
unchanged (the F2..F10 arms test vm.size() > index). -/
theorem kcSelect_oob (k : MKey) (i : ℕ) (act : KAction) (st : Visual)
    (hk : fKeyIdx k = some i) (h1 : 1 ≤ i) (hlen : st.vm.length ≤ i) :
    kc_select k act st = st := by
  cases k <;> simp only [fKeyIdx, Option.some.injEq, reduceCtorEq] at hk <;> subst hk <;>
    first
      | (exfalso; omega)
      | (simp only [kc_select]
         rw [if_neg (fun hcond => absurd hcond.2 (by omega))])

/-- The selection after a successful key_callback equals the selection after
the model-select branch: every later branch preserves selectedVisualModel. -/
theorem key_callback_selected (owned : Bool) (k : MKey) (mods : KeyMods) (act : KAction)
    (st : Visual) (r : Visual × Bool) (h : key_callback owned k mods act st = some r) :
    r.1.selectedVisualModel =
      (kc_select k act (kc_lock k mods act
        (kc_coord k mods act (kc_quit owned k mods act st)).1)).selectedVisualModel := by
  simp only [key_callback] at h
  split at h
  next => simp at h
  next s5 hh =>
    split at h
    next => simp at h
    next s6 ha =>
      split at h
      next => simp at h
      next s7 hb =>
        injection h with h2
        subst h2
        show (kc_ptype k mods act (kc_znear k mods act (kc_fov k mods act
          (kc_reset k mods act (kc_cyl k mods act s7)).1))).1.selectedVisualModel = _
        rw [(kcPtype_pres _ _ _ _).2, (kcZnear_pres _ _ _ _).2, (kcFov_pres _ _ _ _).2,
            (kcReset_pres _ _ _ _).2, (kcCyl_pres _ _ _ _).2,
            (kcAlphaInc_pres _ _ _ _ _ hb).2, (kcAlphaDec_pres _ _ _ _ _ ha).2,
            (kcHide_pres _ _ _ _ _ hh).2]

/-- C4 (amended): for the model-select keys F2..F10 (requested indices 1..9),
a request whose index is at least the current registry size leaves
selectedVisualModel unchanged (the request is ignored, not an error); the F1
key, however, sets selectedVisualModel to 0 unconditionally, even when index
0 does not exist (empty registry). -/
theorem C4_select_oob :
    (∀ (st : Visual) (k : MKey) (i : ℕ) (mods : KeyMods) (act : KAction) (r : Visual × Bool),
      fKeyIdx k = some i → 1 ≤ i → st.vm.length ≤ i →
      key_callback true k mods act st = some r →
      r.1.selectedVisualModel = st.selectedVisualModel) ∧
    (∀ (st : Visual) (mods : KeyMods) (r : Visual × Bool),
      key_callback true MKey.f1 mods KAction.press st = some r →
      r.1.selectedVisualModel = 0) := by
  constructor
  · intro st k i mods act r hk h1 hlen h
    have hlen2 : (kc_lock k mods act
        (kc_coord k mods act (kc_quit true k mods act st)).1).vm.length ≤ i := by
      rw [kcLock_vm, kcCoord_vm, kcQuit_vm]; exact hlen
    rw [key_callback_selected true k mods act st r h,
        kcSelect_oob k i act _ hk h1 hlen2,
        kcLock_pres_sel, (kcCoord_pres _ _ _ _).2, (kcQuit_pres _ _ _ _ _).2]
  · intro st mods r h
    rw [key_callback_selected true MKey.f1 mods KAction.press st r h]
    simp [kc_select]

/-- A control-F2 press selects model 1 only when the registry holds more
than one model; needs_render stays false. -/
theorem key_cb_f2_press (st : Visual) :
    key_callback true MKey.f2 ctrlMods KAction.press st =
      some ((if st.vm.length > 1 then {st with selectedVisualModel := 1} else st), false) := by
  simp [key_callback, kc_quit, kc_coord, kc_lock, kc_select, kc_hide, kc_alphaDec,
    kc_alphaInc, kc_cyl, kc_reset, kc_fov, kc_znear, kc_ptype, isFKey, ctrlMods]

/-- A control-F1 press sets the selection to 0 unconditionally; needs_render
stays false. -/
theorem key_cb_f1_press (st : Visual) :
    key_callback true MKey.f1 ctrlMods KAction.press st =
      some ({st with selectedVisualModel := 0}, false) := by
  simp [key_callback, kc_quit, kc_coord, kc_lock, kc_select, kc_hide, kc_alphaDec,
    kc_alphaInc, kc_cyl, kc_reset, kc_fov, kc_znear, kc_ptype, isFKey, ctrlMods]

/-- Witness for C4: part one at F2 (index 1) on the empty default registry;
part two at F1 on the stale-selection state. -/
theorem C4_select_oob_w :
    ((fKeyIdx MKey.f2 = some 1 ∧ (1 : ℕ) ≤ 1 ∧ initState.vm.length ≤ 1) ∧
      ((initState, false) : Visual × Bool).1.selectedVisualModel =
        initState.selectedVisualModel) ∧
    (({staleSelState with selectedVisualModel := 0},
        false) : Visual × Bool).1.selectedVisualModel = 0 := by
  have h2 : key_callback true MKey.f2 ctrlMods KAction.press initState =
      some (initState, false) := by
    rw [key_cb_f2_press initState]
    norm_num [initState]
  have h1 : key_callback true MKey.f1 ctrlMods KAction.press staleSelState =
      some ({staleSelState with selectedVisualModel := 0}, false) :=
    key_cb_f1_press staleSelState
  exact ⟨⟨⟨rfl, by decide, by decide⟩,
      (C4_select_oob).1 initState MKey.f2 1 ctrlMods KAction.press (initState, false)
        rfl (by decide) (by decide) h2⟩,
    (C4_select_oob).2 staleSelState ctrlMods
      ({staleSelState with selectedVisualModel := 0}, false) h1⟩

/-- C4 counterexample: with an empty registry and a stale selection of 2
(reachable: add three models, press F3, remove all three), an F1 press
requests index 0 with 0 at least the renderable count, yet
selectedVisualModel changes from 2 to 0 - the claim's "left unchanged" fails
for F1. -/
theorem C4_select_oob_cex :
    staleSelState.vm.length = 0 ∧ staleSelState.selectedVisualModel = 2 ∧
    Option.map (fun r => r.1.selectedVisualModel)
      (key_callback true MKey.f1 ctrlMods KAction.press staleSelState) = some 0 := by
  refine ⟨rfl, rfl, ?_⟩
  rw [key_cb_f1_press staleSelState]
  rfl

/-- C5 (amended): a successful key_callback returns true exactly when one of
the three branches that set needs_render fired: the coordinate-arrows toggle
(Ctrl-c press, scene unlocked), the reset-view (Ctrl-a press, scene
unlocked), or the projection cycle (Ctrl-y press).  Every other handled
action - including field-of-view, zNear, cylindrical radius/height, alpha
and hide changes - returns false. -/
theorem C5_render_flag (owned : Bool) (k : MKey) (mods : KeyMods) (act : KAction)
    (st : Visual) (r : Visual × Bool) (h : key_callback owned k mods act st = some r) :
    r.2 = true ↔
      ((st.sceneLocked = false ∧ k = MKey.c ∧ mods.control = true ∧ act = KAction.press) ∨
       (st.sceneLocked = false ∧ k = MKey.a ∧ mods.control = true ∧ act = KAction.press) ∨
       (k = MKey.y ∧ mods.control = true ∧ act = KAction.press)) := by
  simp only [key_callback] at h
  split at h
  next => simp at h
  next s5 hh =>
    split at h
    next => simp at h
    next s6 ha =>
      split at h
      next => simp at h
      next s7 hb =>
        injection h with h2
        subst h2
        by_cases hkl : k = MKey.l
        · subst hkl
          have c1 := kcCoord_snd MKey.l mods act (kc_quit owned MKey.l mods act st)
          have c2 := kcReset_snd MKey.l mods act (kc_cyl MKey.l mods act s7)
          have c3 := kcPtype_snd MKey.l mods act (kc_znear MKey.l mods act
            (kc_fov MKey.l mods act (kc_reset MKey.l mods act (kc_cyl MKey.l mods act s7)).1))
          simp only [Bool.or_eq_true, c1, c2, c3]
          simp
        · have hClock : (kc_select k act (kc_lock k mods act
              (kc_coord k mods act (kc_quit owned k mods act st)).1)).sceneLocked
                = st.sceneLocked := by
            rw [kcSelect_pres_lock, kcLock_of_ne k mods act _ hkl,
                (kcCoord_pres _ _ _ _).1, (kcQuit_pres _ _ _ _ _).1]
          have h5 : s5.sceneLocked = st.sceneLocked := by
            rw [(kcHide_pres _ _ _ _ _ hh).1, hClock]
          have h6 : s6.sceneLocked = st.sceneLocked := by
            rw [(kcAlphaDec_pres _ _ _ _ _ ha).1, h5]
          have h7 : s7.sceneLocked = st.sceneLocked := by
            rw [(kcAlphaInc_pres _ _ _ _ _ hb).1, h6]
          have c1 := kcCoord_snd k mods act (kc_quit owned k mods act st)
          rw [(kcQuit_pres owned k mods act st).1] at c1
          have c2 := kcReset_snd k mods act (kc_cyl k mods act s7)
          rw [(kcCyl_pres _ _ _ _).1, h7] at c2
          have c3 := kcPtype_snd k mods act (kc_znear k mods act
            (kc_fov k mods act (kc_reset k mods act (kc_cyl k mods act s7)).1))
          simp only [Bool.or_eq_true, c1, c2, c3]
          rw [or_assoc]

/-- Witness for C5: an unlocked Ctrl-o press on the default state; the
returned flag is false and the right-hand side is false as well. -/
theorem C5_render_flag_w :
    (({initState with fov := if initState.fov - 2 < 1 then 2 else initState.fov - 2},
        false) : Visual × Bool).2 = true ↔
      ((initState.sceneLocked = false ∧ MKey.o = MKey.c ∧ ctrlMods.control = true ∧
          KAction.press = KAction.press) ∨
       (initState.sceneLocked = false ∧ MKey.o = MKey.a ∧ ctrlMods.control = true ∧
          KAction.press = KAction.press) ∨
       (MKey.o = MKey.y ∧ ctrlMods.control = true ∧ KAction.press = KAction.press)) :=
  C5_render_flag true MKey.o ctrlMods KAction.press initState _
    (key_cb_ctrlO true initState rfl)

/-- C5 counterexample: an unlocked Ctrl-o press changes visual state (fov 30
becomes 28) yet key_callback returns false, refuting "returns true whenever
the event changed visual state (including field-of-view changes)". -/
theorem C5_render_flag_cex :
    initState.fov = 30 ∧
    Option.map (fun r => (r.1.fov, r.2))
      (key_callback true MKey.o ctrlMods KAction.press initState) = some (28, false) := by
  refine ⟨rfl, ?_⟩
  rw [key_cb_ctrlO true initState rfl]
  norm_num [initState]

/-- Witness for C8: a 1-by-2 capture, bottom row, alpha byte and a colour
byte. -/
theorem C8_saveImage_alpha_w :
    ((0 : ℕ) < 2 ∧ (3 : ℕ) < 4 * 1 ∧ (2 : ℕ) < 4 * 1) ∧
    saveImageRbits 1 2 false (fun k => k) (0 * (4 * 1) + 3) = 255 ∧
    saveImageRbits 1 2 true (fun k => k) (0 * (4 * 1) + 3) = (2 - 1 - 0) * (4 * 1) + 3 ∧
    saveImageRbits 1 2 false (fun k => k) (0 * (4 * 1) + 2) = (2 - 1 - 0) * (4 * 1) + 2 := by
  refine ⟨⟨by decide, by decide, by decide⟩, ?_, ?_, ?_⟩
  · exact (C8_saveImage_alpha 1 2 0 3 (fun k => k) (by decide) (by decide)).2.1 (by decide)
  · exact (C8_saveImage_alpha 1 2 0 3 (fun k => k) (by decide) (by decide)).1
  · exact (C8_saveImage_alpha 1 2 0 2 (fun k => k) (by decide) (by decide)).2.2 (by decide)

end MorphVis
